import Mathlib

/-!
Shallow embedding of `src/main.py` (the activation workflow of
`composition_testing`): the two lifecycle enumerations, the fault-injection
flags, the `ActivationWorker` methods, the recovery dispatcher
`handle_error`, and the sequencer `run_activation`.

Python semantics modelled explicitly:
  - every method call returns `Except PyError ret × ActivationWorker`:
    a raised exception carries the state reached so far (mutation is in
    place, never rolled back);
  - a method body returns `some ()` for `return self` and `none` for a bare
    `return` (Python `None`); calling a further method on `None` raises an
    untyped `AttributeError`, modelled by `PyError.attrError`;
  - the `_ERROR_ON_*` environment flags become the `Faults` record;
  - observable side effects (`_LOGGER.info` per completed action,
    `time.sleep`, incident records) are kept in ghost fields `trace`,
    `sleeps`, `incidents` of the worker.
-/

namespace CompositionTesting

/-- Modelled from the spec: the exception classes are imported from
`composition_test.exceptions`, which is not under `src/`; per the spec (§7)
they form a closed taxonomy of distinct failure kinds, one per
failure-capable action, with no payload and no subclass relations among
them (so each `isinstance` check in `handle_error` matches exactly one
kind). -/
inductive Err
  | GetDeviceError
  | CheckModuleError
  | ImplementChangeError
  | PreCheckError
  | ActivationError
  | CloseChangeError
  | CancelChangeError
  | UploadArtifactsError
  | CreateIncidentError
  deriving DecidableEq, Repr

/-- A raised Python exception: either one of the typed workflow errors, or
an untyped `AttributeError` (from calling the named attribute on `None`),
which is outside the closed taxonomy. -/
inductive PyError
  | typed (e : Err)
  | attrError (attr : String)
  deriving DecidableEq, Repr

/-- `ChangeState` from `src/main.py` (lines 34-40). -/
inductive ChangeState
  | NEW
  | ASSESS
  | SCHEDULED
  | IMPLEMENT
  | CLOSED
  | CANCELLED
  deriving DecidableEq, Repr

/-- `ActivationState` from `src/main.py` (lines 43-48). -/
inductive ActivationState
  | NOT_STARTED
  | CHECK_MODULE
  | PRE_CHECK
  | START_ACTIVATION
  | ACTIVATION_COMPLETED
  deriving DecidableEq, Repr

/-- `Device` dataclass from `src/main.py` (lines 51-54). -/
structure Device where
  hostname : String
  ci_item_name : String
  deriving DecidableEq, Repr

/-- The `_ERROR_ON_*` environment-derived fault-injection flags
(`src/main.py` lines 23-31), as booleans (Python truthiness of the
environment value). -/
structure Faults where
  onGetDevice : Bool
  onCheckModule : Bool
  onImplementChange : Bool
  onPreChecks : Bool
  onActivation : Bool
  onCloseChange : Bool
  onUploadArtifacts : Bool
  onCreateIncident : Bool
  onCancelChange : Bool
  deriving DecidableEq, Repr

/-- A recorded incident ticket: its classification and the error it was
created for. -/
inductive Incident
  | serviceOffering (e : Err)
  | software (e : Err)
  deriving DecidableEq, Repr

/-- Ghost log of completed actions, one event per `_LOGGER.info` call on an
action's success path plus one per `time.sleep`. (`cancelledChange` is the
event of `cancel_change`, whose source log text is the copy-pasted string
of `close_change`.) -/
inductive Event
  | gotDevice
  | checkedModule
  | implementedChange
  | ranPreChecks
  | activatedDevice
  | closeNoop
  | closedChange
  | cancelledChange
  | uploadedArtifacts
  | incidentServiceOffering
  | incidentSoftware
  | slept
  deriving DecidableEq, Repr

/-- The mutable state of one `ActivationWorker` instance, plus the ghost
observation fields `incidents`, `sleeps`, `trace`. -/
structure ActivationWorker where
  esp_instance : String
  cr_number : String
  change_state : ChangeState
  activation_state : ActivationState
  device : Option Device
  incidents : List Incident
  sleeps : Nat
  trace : List Event
  deriving DecidableEq, Repr

deriving instance DecidableEq for Except

/-- Result of one Python method call: an exception (with the state reached)
or a returned value (`some ()` for `return self`, `none` for Python
`None`), with the state. -/
abbrev MRes := Except PyError (Option Unit) × ActivationWorker

/-- `ActivationWorker.__init__` (lines 58-65): `ChangeState.SCHEDULED`,
`ActivationState.NOT_STARTED`, no device. -/
def ActivationWorker.new (esp cr : String) : ActivationWorker :=
  { esp_instance := esp
    cr_number := cr
    change_state := ChangeState.SCHEDULED
    activation_state := ActivationState.NOT_STARTED
    device := none
    incidents := []
    sleeps := 0
    trace := [] }

/-- `get_device_info` (lines 67-72). -/
def ActivationWorker.get_device_info (f : Faults) (w : ActivationWorker) : MRes :=
  if f.onGetDevice then (.error (.typed .GetDeviceError), w)
  else
    (.ok (some ()),
      { w with
        device := some { hostname := "switch-1.cisco.com", ci_item_name := "switch-1" }
        trace := w.trace ++ [Event.gotDevice] })

/-- `check_module` (lines 74-82). -/
def ActivationWorker.check_module (f : Faults) (w : ActivationWorker) : MRes :=
  if f.onCheckModule then (.error (.typed .CheckModuleError), w)
  else
    (.ok (some ()),
      { w with
        activation_state := ActivationState.CHECK_MODULE
        trace := w.trace ++ [Event.checkedModule] })

/-- `implement_change` (lines 84-91). -/
def ActivationWorker.implement_change (f : Faults) (w : ActivationWorker) : MRes :=
  if f.onImplementChange then (.error (.typed .ImplementChangeError), w)
  else
    (.ok (some ()),
      { w with
        change_state := ChangeState.IMPLEMENT
        trace := w.trace ++ [Event.implementedChange] })

/-- `activation_pre_checks` (lines 93-100). -/
def ActivationWorker.activation_pre_checks (f : Faults) (w : ActivationWorker) : MRes :=
  if f.onPreChecks then (.error (.typed .PreCheckError), w)
  else
    (.ok (some ()),
      { w with
        activation_state := ActivationState.PRE_CHECK
        trace := w.trace ++ [Event.ranPreChecks] })

/-- `activate_device` (lines 102-110): sets `START_ACTIVATION` before the
attempt, so a failure leaves the state there. -/
def ActivationWorker.activate_device (f : Faults) (w : ActivationWorker) : MRes :=
  let w1 := { w with activation_state := ActivationState.START_ACTIVATION }
  if f.onActivation then (.error (.typed .ActivationError), w1)
  else
    (.ok (some ()),
      { w1 with
        activation_state := ActivationState.ACTIVATION_COMPLETED
        trace := w1.trace ++ [Event.activatedDevice] })

/-- `close_change` (lines 112-121): when `ActivationState` is not
`ACTIVATION_COMPLETED` the method logs an unsuccessful close, leaves
`change_state` alone and executes a bare `return`, i.e. returns `None`. -/
def ActivationWorker.close_change (f : Faults) (w : ActivationWorker) : MRes :=
  if f.onCloseChange then (.error (.typed .CloseChangeError), w)
  else if w.activation_state ≠ ActivationState.ACTIVATION_COMPLETED then
    (.ok none, { w with trace := w.trace ++ [Event.closeNoop] })
  else
    (.ok (some ()),
      { w with
        change_state := ChangeState.CLOSED
        trace := w.trace ++ [Event.closedChange] })

/-- `cancel_change` (lines 123-129): sets `CANCELLED` unconditionally. -/
def ActivationWorker.cancel_change (f : Faults) (w : ActivationWorker) : MRes :=
  if f.onCancelChange then (.error (.typed .CancelChangeError), w)
  else
    (.ok (some ()),
      { w with
        change_state := ChangeState.CANCELLED
        trace := w.trace ++ [Event.cancelledChange] })

/-- `upload_artifacts` (lines 131-136). -/
def ActivationWorker.upload_artifacts (f : Faults) (w : ActivationWorker) : MRes :=
  if f.onUploadArtifacts then (.error (.typed .UploadArtifactsError), w)
  else (.ok (some ()), { w with trace := w.trace ++ [Event.uploadedArtifacts] })

/-- `create_service_offering_incident` (lines 138-142). -/
def ActivationWorker.create_service_offering_incident (f : Faults) (e : Err)
    (w : ActivationWorker) : MRes :=
  if f.onCreateIncident then (.error (.typed .CreateIncidentError), w)
  else
    (.ok (some ()),
      { w with
        incidents := w.incidents ++ [Incident.serviceOffering e]
        trace := w.trace ++ [Event.incidentServiceOffering] })

/-- `create_software_incident` (lines 144-146): no fault check in the
source. -/
def ActivationWorker.create_software_incident (e : Err) (w : ActivationWorker) : MRes :=
  (.ok (some ()),
    { w with
      incidents := w.incidents ++ [Incident.software e]
      trace := w.trace ++ [Event.incidentSoftware] })

/-- `create_incident` (lines 148-151): service-offering for
`ActivationError`, software otherwise. -/
def ActivationWorker.create_incident (f : Faults) (e : Err) (w : ActivationWorker) : MRes :=
  if e = Err.ActivationError then ActivationWorker.create_service_offering_incident f e w
  else ActivationWorker.create_software_incident e w

/-- Python attribute access on a chained method call: if the previous call
raised, the exception keeps propagating; if it returned `None`, looking up
the next method raises an untyped `AttributeError`; otherwise the next call
runs on the (mutated) worker. -/
def pyChain (r : MRes) (attr : String) (next : ActivationWorker → MRes) : MRes :=
  match r with
  | (.error e, w) => (.error e, w)
  | (.ok none, w) => (.error (.attrError attr), w)
  | (.ok (some _), w) => next w

/-- The chained expression `self.close_change().upload_artifacts()` used in
every compensating branch of `handle_error`. -/
def closeUploadChain (f : Faults) (w : ActivationWorker) : MRes :=
  pyChain (ActivationWorker.close_change f w) "upload_artifacts"
    (ActivationWorker.upload_artifacts f)

/-- The chained expression
`self.close_change().upload_artifacts().create_incident(error)`. -/
def closeUploadIncidentChain (f : Faults) (e : Err) (w : ActivationWorker) : MRes :=
  pyChain (closeUploadChain f w) "create_incident"
    (fun w2 => ActivationWorker.create_incident f e w2)

/-- The chained expression
`self.cancel_change().upload_artifacts().create_incident(error)`. -/
def cancelUploadIncidentChain (f : Faults) (e : Err) (w : ActivationWorker) : MRes :=
  pyChain
    (pyChain (ActivationWorker.cancel_change f w) "upload_artifacts"
      (ActivationWorker.upload_artifacts f))
    "create_incident"
    (fun w2 => ActivationWorker.create_incident f e w2)

/-- The `time.sleep(3)` backoff, recorded in the ghost fields. -/
def sleepBackoff (w : ActivationWorker) : ActivationWorker :=
  { w with sleeps := w.sleeps + 1, trace := w.trace ++ [Event.slept] }

/-- `handle_error` (lines 153-192), the recovery dispatcher. The source is
a sequence of independent `isinstance` checks; since the error kinds are
distinct classes exactly one check matches, so the dispatch is a `match`
on the kind. A branch whose chain raises propagates the exception; a
branch that completes falls through to `return self`. -/
def ActivationWorker.handle_error (f : Faults) (e : Err) (w : ActivationWorker) : MRes :=
  if f.onCreateIncident then (.error (.typed .CreateIncidentError), w)
  else
    match e with
    | .GetDeviceError =>
        if w.change_state = ChangeState.IMPLEMENT then
          closeUploadIncidentChain f Err.GetDeviceError w
        else
          cancelUploadIncidentChain f Err.GetDeviceError w
    | .CheckModuleError =>
        if w.change_state = ChangeState.IMPLEMENT then
          closeUploadIncidentChain f Err.CheckModuleError w
        else
          cancelUploadIncidentChain f Err.CheckModuleError w
    | .PreCheckError => closeUploadIncidentChain f Err.PreCheckError w
    | .ActivationError => closeUploadIncidentChain f Err.ActivationError w
    | .CloseChangeError =>
        match closeUploadChain f (sleepBackoff w) with
        | (.error (.typed .CloseChangeError), w2) =>
            ActivationWorker.create_incident f Err.CloseChangeError w2
        | (.error (.typed .UploadArtifactsError), w2) =>
            ActivationWorker.create_incident f Err.CloseChangeError w2
        | (.error err, w2) => (.error err, w2)
        | (.ok _, w2) => (.ok (some ()), w2)
    | .UploadArtifactsError =>
        match ActivationWorker.upload_artifacts f (sleepBackoff w) with
        | (.error err, w2) => (.error err, w2)
        | (.ok _, w2) => (.ok (some ()), w2)
    | .ImplementChangeError => (.ok (some ()), w)
    | .CancelChangeError => (.ok (some ()), w)
    | .CreateIncidentError => (.ok (some ()), w)

/-- The bound methods that `main` (lines 211-224) passes as steps. -/
inductive Step
  | get_device_info
  | check_module
  | implement_change
  | activation_pre_checks
  | activate_device
  | close_change
  | cancel_change
  | upload_artifacts
  deriving DecidableEq, Repr

/-- Dispatch one step to the corresponding worker method. -/
def runStep (f : Faults) (s : Step) (w : ActivationWorker) : MRes :=
  match s with
  | .get_device_info => ActivationWorker.get_device_info f w
  | .check_module => ActivationWorker.check_module f w
  | .implement_change => ActivationWorker.implement_change f w
  | .activation_pre_checks => ActivationWorker.activation_pre_checks f w
  | .activate_device => ActivationWorker.activate_device f w
  | .close_change => ActivationWorker.close_change f w
  | .cancel_change => ActivationWorker.cancel_change f w
  | .upload_artifacts => ActivationWorker.upload_artifacts f w

/-- The tuple of exception types in `run_activation`'s `except` clause
(lines 198-207): the eight step-error kinds; `CreateIncidentError` and the
untyped `AttributeError` are not caught. -/
def caughtByRun : PyError → Option Err
  | .typed .GetDeviceError => some .GetDeviceError
  | .typed .CheckModuleError => some .CheckModuleError
  | .typed .ImplementChangeError => some .ImplementChangeError
  | .typed .PreCheckError => some .PreCheckError
  | .typed .ActivationError => some .ActivationError
  | .typed .CloseChangeError => some .CloseChangeError
  | .typed .CancelChangeError => some .CancelChangeError
  | .typed .UploadArtifactsError => some .UploadArtifactsError
  | .typed .CreateIncidentError => none
  | .attrError _ => none

/-- `run_activation` (lines 194-208): run the steps in order inside one
`try`; the first raise leaves the loop; if the exception is in the caught
tuple, `handle_error` runs once and whatever it raises propagates; an
uncaught exception propagates raw. -/
def ActivationWorker.run_activation (f : Faults) (steps : List Step)
    (w : ActivationWorker) : Except PyError Unit × ActivationWorker :=
  match steps with
  | [] => (.ok (), w)
  | s :: rest =>
    match runStep f s w with
    | (.ok _, w1) => ActivationWorker.run_activation f rest w1
    | (.error err, w1) =>
      match caughtByRun err with
      | some e =>
        match ActivationWorker.handle_error f e w1 with
        | (.ok _, w2) => (.ok (), w2)
        | (.error err2, w2) => (.error err2, w2)
      | none => (.error err, w1)

/-- The bare step loop of `run_activation` (lines 196-197) without the
handler: runs steps in order, stops at the first raise. -/
def run_steps (f : Faults) (steps : List Step) (w : ActivationWorker) :
    Except PyError Unit × ActivationWorker :=
  match steps with
  | [] => (.ok (), w)
  | s :: rest =>
    match runStep f s w with
    | (.ok _, w1) => run_steps f rest w1
    | (.error err, w1) => (.error err, w1)

/-- Whether an `Except` result is a raised exception. -/
def isErr : Except PyError Unit → Bool
  | .error _ => true
  | .ok _ => false

/-- The step list `main` passes to `run_activation` (lines 214-224). -/
def mainSteps : List Step :=
  [Step.get_device_info, Step.check_module, Step.implement_change,
   Step.activation_pre_checks, Step.activate_device, Step.close_change,
   Step.upload_artifacts]

/-- The worker `main` constructs (line 213). -/
def initialWorker : ActivationWorker := ActivationWorker.new "cisco" "CHG1234"

/-- All fault flags off. -/
def noFaults : Faults :=
  { onGetDevice := false, onCheckModule := false, onImplementChange := false
    onPreChecks := false, onActivation := false, onCloseChange := false
    onUploadArtifacts := false, onCreateIncident := false, onCancelChange := false }

/-- Fault injected only on `check-module` (scenario B). -/
def faultsCheckModule : Faults := { noFaults with onCheckModule := true }

/-- Fault injected only on `activate-device` (scenario C). -/
def faultsActivation : Faults := { noFaults with onActivation := true }

/-- Fault injected only on `close-change`. -/
def faultsCloseChange : Faults := { noFaults with onCloseChange := true }

/-- A worker whose change is already in the terminal `CLOSED` state. -/
def terminalClosedWorker : ActivationWorker :=
  { initialWorker with change_state := ChangeState.CLOSED }

/-- A worker whose change is already in the terminal `CANCELLED` state. -/
def terminalCancelledWorker : ActivationWorker :=
  { initialWorker with change_state := ChangeState.CANCELLED }

/-- A worker at the point where `activate_device` has just failed: the
change is in `IMPLEMENT` and activation is stuck at `START_ACTIVATION`. -/
def implementWorker : ActivationWorker :=
  { initialWorker with
    change_state := ChangeState.IMPLEMENT
    activation_state := ActivationState.START_ACTIVATION }

theorem closeUploadChain_incidents (f : Faults) (w : ActivationWorker) :
    (closeUploadChain f w).2.incidents = w.incidents := by
  unfold closeUploadChain ActivationWorker.close_change ActivationWorker.upload_artifacts
  split_ifs <;> simp [pyChain]

theorem closeUploadChain_sleeps (f : Faults) (w : ActivationWorker) :
    (closeUploadChain f w).2.sleeps = w.sleeps := by
  unfold closeUploadChain ActivationWorker.close_change ActivationWorker.upload_artifacts
  split_ifs <;> simp [pyChain]

/-- C3: with no faults injected, running the full step sequence
`[get-device-info, check-module, implement-change, activation-pre-checks,
activate-device, close-change, upload-artifacts]` completes normally with
`ChangeState = CLOSED`, `ActivationState = ACTIVATION_COMPLETED`, and zero
incidents recorded. -/
theorem scenarioA_no_faults_completes :
    (ActivationWorker.run_activation noFaults mainSteps initialWorker).1 = Except.ok () ∧
    (ActivationWorker.run_activation noFaults mainSteps initialWorker).2.change_state =
      ChangeState.CLOSED ∧
    (ActivationWorker.run_activation noFaults mainSteps initialWorker).2.activation_state =
      ActivationState.ACTIVATION_COMPLETED ∧
    (ActivationWorker.run_activation noFaults mainSteps initialWorker).2.incidents = [] :=
  ⟨rfl, rfl, rfl, rfl⟩

/-- C5: with a fault injected only on `check-module` (`ChangeState` still
`SCHEDULED` at failure time), recovery runs `cancel-change`, then
`upload-artifacts`, then creates exactly one software incident, in that
order, and the final state is `ChangeState = CANCELLED`. -/
theorem scenarioB_cancel_upload_incident :
    (ActivationWorker.run_activation faultsCheckModule mainSteps initialWorker).1 =
      Except.ok () ∧
    (ActivationWorker.run_activation faultsCheckModule mainSteps initialWorker).2.change_state =
      ChangeState.CANCELLED ∧
    (ActivationWorker.run_activation faultsCheckModule mainSteps initialWorker).2.incidents =
      [Incident.software Err.CheckModuleError] ∧
    (ActivationWorker.run_activation faultsCheckModule mainSteps initialWorker).2.trace =
      [Event.gotDevice, Event.cancelledChange, Event.uploadedArtifacts,
       Event.incidentSoftware] :=
  ⟨rfl, rfl, rfl, rfl⟩

/-- C1 is false on the code: with a fault injected only on
`activate-device`, the compensating `close_change` takes its no-op branch
(activation never completed) and returns `None`, so the chained
`upload_artifacts` raises an untyped `AttributeError`; the run ends with
`ChangeState = IMPLEMENT` (not `CLOSED`) and zero incidents (not one). -/
theorem scenarioC_not_closed_no_incident :
    (ActivationWorker.run_activation faultsActivation mainSteps initialWorker).2.change_state =
      ChangeState.IMPLEMENT ∧
    (ActivationWorker.run_activation faultsActivation mainSteps initialWorker).2.change_state ≠
      ChangeState.CLOSED ∧
    (ActivationWorker.run_activation faultsActivation mainSteps initialWorker).2.incidents = [] ∧
    (ActivationWorker.run_activation faultsActivation mainSteps initialWorker).2.activation_state =
      ActivationState.START_ACTIVATION ∧
    (ActivationWorker.run_activation faultsActivation mainSteps initialWorker).1 =
      Except.error (PyError.attrError "upload_artifacts") :=
  ⟨rfl, by decide, rfl, rfl, rfl⟩

/-- C1 (amended): for `PreCheckError` and `ActivationError` failures handed
to `handle_error` (no incident-creation or close fault injected), recovery
calls `close-change`, which, because `ActivationState` is not
`ACTIVATION_COMPLETED`, leaves `ChangeState` unchanged and returns `None`;
the chain then aborts with an untyped attribute error before
`upload-artifacts` or incident creation, leaving the worker unchanged
except for the unsuccessful-close log event. -/
theorem precheck_activation_recovery_aborts (f : Faults) (w : ActivationWorker) (e : Err)
    (he : e = Err.PreCheckError ∨ e = Err.ActivationError)
    (hci : f.onCreateIncident = false) (hcc : f.onCloseChange = false)
    (ha : w.activation_state ≠ ActivationState.ACTIVATION_COMPLETED) :
    ActivationWorker.handle_error f e w =
      (Except.error (PyError.attrError "upload_artifacts"),
       { w with trace := w.trace ++ [Event.closeNoop] }) := by
  rcases he with h | h <;> subst h <;>
    simp [ActivationWorker.handle_error, hci, closeUploadIncidentChain, closeUploadChain,
      ActivationWorker.close_change, hcc, ha, pyChain]

theorem precheck_activation_recovery_aborts_witness :
    (Err.ActivationError = Err.PreCheckError ∨ Err.ActivationError = Err.ActivationError) ∧
    faultsActivation.onCreateIncident = false ∧
    faultsActivation.onCloseChange = false ∧
    implementWorker.activation_state ≠ ActivationState.ACTIVATION_COMPLETED ∧
    ActivationWorker.handle_error faultsActivation Err.ActivationError implementWorker =
      (Except.error (PyError.attrError "upload_artifacts"),
       { implementWorker with trace := implementWorker.trace ++ [Event.closeNoop] }) :=
  ⟨Or.inr rfl, rfl, rfl, by decide,
    precheck_activation_recovery_aborts faultsActivation implementWorker Err.ActivationError
      (Or.inr rfl) rfl rfl (by decide)⟩

/-- C2 is false on the code: with a fault injected only on
`activate-device`, `run_activation` does not return normally — the untyped
attribute error raised inside the recovery dispatcher propagates to the
caller. -/
theorem run_activation_reraises :
    isErr (ActivationWorker.run_activation faultsActivation mainSteps initialWorker).1 = true ∧
    (ActivationWorker.run_activation faultsActivation mainSteps initialWorker).1 ≠
      Except.ok () :=
  ⟨rfl, by decide⟩

/-- C2 (amended): `run_activation` catches every typed failure of the
primary sequence and never re-raises it, but failures raised inside the
recovery dispatcher escape to the caller; over `main`'s step list, for
every fault combination, the run either returns normally or raises one of
`CancelChangeError`, `CloseChangeError`, `UploadArtifactsError`,
`CreateIncidentError` (all raised during recovery) or the untyped
attribute error from the broken `close_change` chain — never one of the
five kinds only the primary sequence raises. -/
theorem run_activation_escapes_only_recovery_errors (f : Faults) :
    (ActivationWorker.run_activation f mainSteps initialWorker).1 = Except.ok () ∨
    (ActivationWorker.run_activation f mainSteps initialWorker).1 =
      Except.error (PyError.typed Err.CancelChangeError) ∨
    (ActivationWorker.run_activation f mainSteps initialWorker).1 =
      Except.error (PyError.typed Err.CloseChangeError) ∨
    (ActivationWorker.run_activation f mainSteps initialWorker).1 =
      Except.error (PyError.typed Err.UploadArtifactsError) ∨
    (ActivationWorker.run_activation f mainSteps initialWorker).1 =
      Except.error (PyError.typed Err.CreateIncidentError) ∨
    (ActivationWorker.run_activation f mainSteps initialWorker).1 =
      Except.error (PyError.attrError "upload_artifacts") := by
  obtain ⟨a, b, c, d, e, g, h, i, j⟩ := f
  revert a b c d e g h i j
  decide

/-- C4: when a `CloseChangeError` reaches `handle_error` (no
incident-creation fault injected), the dispatcher performs exactly one
backoff wait; the retried `close_change` / `upload_artifacts` chain never
touches the incident list; if the retry fails with `CloseChangeError` or
`UploadArtifactsError`, the guard catches it and exactly one incident is
created for the original `CloseChangeError` (a software incident recording
the original kind, not the retry's); if the retry succeeds, no incident is
created. -/
theorem close_change_error_single_retry (f : Faults) (w : ActivationWorker)
    (hci : f.onCreateIncident = false) :
    (ActivationWorker.handle_error f Err.CloseChangeError w).2.sleeps = w.sleeps + 1 ∧
    (closeUploadChain f (sleepBackoff w)).2.incidents = w.incidents ∧
    (∀ w2,
      closeUploadChain f (sleepBackoff w) =
          (Except.error (PyError.typed Err.CloseChangeError), w2) ∨
      closeUploadChain f (sleepBackoff w) =
          (Except.error (PyError.typed Err.UploadArtifactsError), w2) →
      ActivationWorker.handle_error f Err.CloseChangeError w =
        (Except.ok (some ()),
         { w2 with
           incidents := w2.incidents ++ [Incident.software Err.CloseChangeError]
           trace := w2.trace ++ [Event.incidentSoftware] })) ∧
    (∀ u w2, closeUploadChain f (sleepBackoff w) = (Except.ok u, w2) →
      ActivationWorker.handle_error f Err.CloseChangeError w = (Except.ok (some ()), w2)) := by
  refine ⟨?_, ?_, ?_, ?_⟩
  · have hsl := closeUploadChain_sleeps f (sleepBackoff w)
    rcases hch : closeUploadChain f (sleepBackoff w) with ⟨r, w2⟩
    rw [hch] at hsl
    have hs2 : w2.sleeps = w.sleeps + 1 := by simpa [sleepBackoff] using hsl
    rcases r with err | o
    · rcases err with te | s
      · cases te <;>
          simp [ActivationWorker.handle_error, hci, hch,
            ActivationWorker.create_incident, ActivationWorker.create_software_incident, hs2]
      · simp [ActivationWorker.handle_error, hci, hch, hs2]
    · simp [ActivationWorker.handle_error, hci, hch, hs2]
  · rw [closeUploadChain_incidents]
    rfl
  · intro w2 hch
    rcases hch with hch | hch <;>
      simp [ActivationWorker.handle_error, hci, hch,
        ActivationWorker.create_incident, ActivationWorker.create_software_incident]
  · intro u w2 hch
    simp [ActivationWorker.handle_error, hci, hch]

theorem close_change_error_single_retry_witness :
    faultsCloseChange.onCreateIncident = false ∧
    closeUploadChain faultsCloseChange (sleepBackoff initialWorker) =
      (Except.error (PyError.typed Err.CloseChangeError), sleepBackoff initialWorker) ∧
    (ActivationWorker.handle_error faultsCloseChange Err.CloseChangeError
        initialWorker).2.sleeps = initialWorker.sleeps + 1 ∧
    ActivationWorker.handle_error faultsCloseChange Err.CloseChangeError initialWorker =
      (Except.ok (some ()),
       { sleepBackoff initialWorker with
         incidents :=
           (sleepBackoff initialWorker).incidents ++ [Incident.software Err.CloseChangeError]
         trace := (sleepBackoff initialWorker).trace ++ [Event.incidentSoftware] }) :=
  ⟨rfl, rfl,
    (close_change_error_single_retry faultsCloseChange initialWorker rfl).1,
    (close_change_error_single_retry faultsCloseChange initialWorker rfl).2.2.1
      (sleepBackoff initialWorker) (Or.inl rfl)⟩

theorem run_activation_characterization (f : Faults) (steps : List Step)
    (w : ActivationWorker) :
    ActivationWorker.run_activation f steps w =
      (match run_steps f steps w with
       | (.ok _, w1) => ((Except.ok () : Except PyError Unit), w1)
       | (.error err, w1) =>
         match caughtByRun err with
         | some e =>
           (match ActivationWorker.handle_error f e w1 with
            | (.ok _, w2) => ((Except.ok () : Except PyError Unit), w2)
            | (.error e2, w2) => (Except.error e2, w2))
         | none => (Except.error err, w1)) := by
  induction steps generalizing w with
  | nil => rfl
  | cons s rest ih =>
    rcases hrs : runStep f s w with ⟨r, w1⟩
    rcases r with err | v
    · simp [ActivationWorker.run_activation, run_steps, hrs]
    · simpa [ActivationWorker.run_activation, run_steps, hrs] using ih w1

theorem run_steps_stops (f : Faults) (xs ys : List Step) (w : ActivationWorker)
    (h : isErr (run_steps f xs w).1 = true) :
    run_steps f (xs ++ ys) w = run_steps f xs w := by
  induction xs generalizing w with
  | nil => simp [run_steps, isErr] at h
  | cons s rest ih =>
    rcases hrs : runStep f s w with ⟨r, w1⟩
    rcases r with err | v
    · simp [run_steps, hrs]
    · rw [run_steps, hrs] at h
      simp only [List.cons_append, run_steps, hrs]
      exact ih w1 h

/-- C6: the sequencer `run_activation` executes the given steps strictly in
order via the bare loop `run_steps`; its whole behavior is: run the steps
to the first raise, and if the raised error is in the caught tuple, hand it
exactly once to `handle_error` (whose own raise propagates); moreover, once
a prefix of the step list has raised, the remaining steps never run — the
loop's result on the full list equals its result on the failing prefix. The
sequencer itself retries nothing: each step is evaluated at most once,
and every retry in the model happens inside `handle_error`. -/
theorem sequencer_first_failure_single_dispatch (f : Faults) (steps xs ys : List Step)
    (w : ActivationWorker) :
    (ActivationWorker.run_activation f steps w =
      (match run_steps f steps w with
       | (.ok _, w1) => ((Except.ok () : Except PyError Unit), w1)
       | (.error err, w1) =>
         match caughtByRun err with
         | some e =>
           (match ActivationWorker.handle_error f e w1 with
            | (.ok _, w2) => ((Except.ok () : Except PyError Unit), w2)
            | (.error e2, w2) => (Except.error e2, w2))
         | none => (Except.error err, w1))) ∧
    (steps = xs ++ ys → isErr (run_steps f xs w).1 = true →
      run_steps f steps w = run_steps f xs w) :=
  ⟨run_activation_characterization f steps w,
    fun hsplit herr => hsplit ▸ run_steps_stops f xs ys w herr⟩

theorem sequencer_first_failure_single_dispatch_witness :
    mainSteps =
      [Step.get_device_info, Step.check_module] ++
        [Step.implement_change, Step.activation_pre_checks, Step.activate_device,
         Step.close_change, Step.upload_artifacts] ∧
    isErr (run_steps faultsCheckModule [Step.get_device_info, Step.check_module]
        initialWorker).1 = true ∧
    run_steps faultsCheckModule mainSteps initialWorker =
      run_steps faultsCheckModule [Step.get_device_info, Step.check_module] initialWorker :=
  ⟨rfl, rfl,
    (sequencer_first_failure_single_dispatch faultsCheckModule mainSteps
        [Step.get_device_info, Step.check_module]
        [Step.implement_change, Step.activation_pre_checks, Step.activate_device,
         Step.close_change, Step.upload_artifacts] initialWorker).2 rfl rfl⟩

/-- C7: when an `ImplementChangeError` or a `CancelChangeError` is handed
to `handle_error`, no `isinstance` branch matches it: the worker is
returned completely unchanged (no compensating action, no incident, no
state-enum change, nothing logged), and — when no incident-creation fault
is injected — the dispatcher falls through silently to `return self`. -/
theorem unmatched_error_fall_through (f : Faults) (w : ActivationWorker) (e : Err)
    (he : e = Err.ImplementChangeError ∨ e = Err.CancelChangeError) :
    (ActivationWorker.handle_error f e w).2 = w ∧
    (f.onCreateIncident = false →
      ActivationWorker.handle_error f e w = (Except.ok (some ()), w)) := by
  rcases he with h | h <;> subst h <;>
    exact ⟨by cases hb : f.onCreateIncident <;> simp [ActivationWorker.handle_error, hb],
      fun hci => by simp [ActivationWorker.handle_error, hci]⟩

theorem unmatched_error_fall_through_witness :
    (Err.ImplementChangeError = Err.ImplementChangeError ∨
      Err.ImplementChangeError = Err.CancelChangeError) ∧
    noFaults.onCreateIncident = false ∧
    (ActivationWorker.handle_error noFaults Err.ImplementChangeError initialWorker).2 =
      initialWorker ∧
    ActivationWorker.handle_error noFaults Err.ImplementChangeError initialWorker =
      (Except.ok (some ()), initialWorker) :=
  ⟨Or.inl rfl, rfl,
    (unmatched_error_fall_through noFaults initialWorker Err.ImplementChangeError
        (Or.inl rfl)).1,
    (unmatched_error_fall_through noFaults initialWorker Err.ImplementChangeError
        (Or.inl rfl)).2 rfl⟩

/-- C8: a call to `close_change` made while `ActivationState` is not
`ACTIVATION_COMPLETED` and with no close fault injected (the call
succeeds) never raises: it takes the no-op branch, logs the unsuccessful
close, returns `None`, and leaves `ChangeState` (indeed every field but
the ghost log) unchanged. -/
theorem close_change_noop_branch (f : Faults) (w : ActivationWorker)
    (hf : f.onCloseChange = false)
    (ha : w.activation_state ≠ ActivationState.ACTIVATION_COMPLETED) :
    ActivationWorker.close_change f w =
      (Except.ok none, { w with trace := w.trace ++ [Event.closeNoop] }) ∧
    (ActivationWorker.close_change f w).2.change_state = w.change_state := by
  have h : ActivationWorker.close_change f w =
      (Except.ok none, { w with trace := w.trace ++ [Event.closeNoop] }) := by
    simp [ActivationWorker.close_change, hf, ha]
  exact ⟨h, by rw [h]⟩

theorem close_change_noop_branch_witness :
    noFaults.onCloseChange = false ∧
    initialWorker.activation_state ≠ ActivationState.ACTIVATION_COMPLETED ∧
    ActivationWorker.close_change noFaults initialWorker =
      (Except.ok none, { initialWorker with trace := initialWorker.trace ++ [Event.closeNoop] }) ∧
    (ActivationWorker.close_change noFaults initialWorker).2.change_state =
      initialWorker.change_state :=
  ⟨rfl, by decide,
    (close_change_noop_branch noFaults initialWorker rfl (by decide)).1,
    (close_change_noop_branch noFaults initialWorker rfl (by decide)).2⟩

/-- C9 is false on the code: `cancel_change` (a recovery action) applied to
a worker whose `ChangeState` is already the terminal `CLOSED` overwrites it
with `CANCELLED`. -/
theorem cancel_change_overwrites_closed :
    terminalClosedWorker.change_state = ChangeState.CLOSED ∧
    (ActivationWorker.cancel_change noFaults terminalClosedWorker).2.change_state ≠
      terminalClosedWorker.change_state ∧
    (ActivationWorker.cancel_change noFaults terminalClosedWorker).2.change_state =
      ChangeState.CANCELLED :=
  ⟨rfl, by decide, rfl⟩

/-- C9 (amended): when `ChangeState` is `CLOSED` or `CANCELLED`, the
actions `get_device_info`, `check_module`, `activation_pre_checks`,
`activate_device`, `upload_artifacts` and `create_incident` leave it
unchanged; but `cancel_change`, `implement_change` and a successful
`close_change` overwrite it unconditionally (to `CANCELLED`, `IMPLEMENT`
and `CLOSED` respectively), so the terminal states are not preserved by
every step and recovery action — only `close_change`'s no-op branch among
the change-mutating ones leaves them alone. -/
theorem terminal_change_states_per_action (f : Faults) (w : ActivationWorker) (e : Err)
    (h : w.change_state = ChangeState.CLOSED ∨ w.change_state = ChangeState.CANCELLED) :
    (ActivationWorker.get_device_info f w).2.change_state = w.change_state ∧
    (ActivationWorker.check_module f w).2.change_state = w.change_state ∧
    (ActivationWorker.activation_pre_checks f w).2.change_state = w.change_state ∧
    (ActivationWorker.activate_device f w).2.change_state = w.change_state ∧
    (ActivationWorker.upload_artifacts f w).2.change_state = w.change_state ∧
    (ActivationWorker.create_incident f e w).2.change_state = w.change_state ∧
    (f.onCloseChange = false → w.activation_state ≠ ActivationState.ACTIVATION_COMPLETED →
      (ActivationWorker.close_change f w).2.change_state = w.change_state) ∧
    (f.onCancelChange = false →
      (ActivationWorker.cancel_change f w).2.change_state = ChangeState.CANCELLED) ∧
    (f.onImplementChange = false →
      (ActivationWorker.implement_change f w).2.change_state = ChangeState.IMPLEMENT) ∧
    (f.onCloseChange = false → w.activation_state = ActivationState.ACTIVATION_COMPLETED →
      (ActivationWorker.close_change f w).2.change_state = ChangeState.CLOSED) := by
  refine ⟨?_, ?_, ?_, ?_, ?_, ?_, ?_, ?_, ?_, ?_⟩
  · cases hb : f.onGetDevice <;> simp [ActivationWorker.get_device_info, hb]
  · cases hb : f.onCheckModule <;> simp [ActivationWorker.check_module, hb]
  · cases hb : f.onPreChecks <;> simp [ActivationWorker.activation_pre_checks, hb]
  · cases hb : f.onActivation <;> simp [ActivationWorker.activate_device, hb]
  · cases hb : f.onUploadArtifacts <;> simp [ActivationWorker.upload_artifacts, hb]
  · cases he : e <;>
      cases hb : f.onCreateIncident <;>
        simp [ActivationWorker.create_incident, ActivationWorker.create_software_incident,
          ActivationWorker.create_service_offering_incident, hb]
  · intro hf ha
    simp [ActivationWorker.close_change, hf, ha]
  · intro hc
    simp [ActivationWorker.cancel_change, hc]
  · intro hi
    simp [ActivationWorker.implement_change, hi]
  · intro hf ha
    simp [ActivationWorker.close_change, hf, ha]

theorem terminal_change_states_per_action_witness :
    (terminalCancelledWorker.change_state = ChangeState.CLOSED ∨
      terminalCancelledWorker.change_state = ChangeState.CANCELLED) ∧
    noFaults.onCancelChange = false ∧
    (ActivationWorker.get_device_info noFaults terminalCancelledWorker).2.change_state =
      terminalCancelledWorker.change_state ∧
    (ActivationWorker.cancel_change noFaults terminalCancelledWorker).2.change_state =
      ChangeState.CANCELLED :=
  ⟨Or.inr rfl, rfl,
    (terminal_change_states_per_action noFaults terminalCancelledWorker Err.GetDeviceError
        (Or.inr rfl)).1,
    (terminal_change_states_per_action noFaults terminalCancelledWorker Err.GetDeviceError
        (Or.inr rfl)).2.2.2.2.2.2.2.1 rfl⟩

/-- C10: when `ActivationState` is not `ACTIVATION_COMPLETED` and no close
fault is injected, `close_change` returns `None` instead of the worker, so
the chained compensating sequence `close_change().upload_artifacts()`
aborts with an untyped attribute error — outside the closed error
taxonomy — without uploading artifacts or creating an incident: this holds
for the bare chain and for every `handle_error` branch that uses it (the
`GetDeviceError`/`CheckModuleError` branches at `IMPLEMENT`, the
`PreCheckError` and `ActivationError` branches, and the guarded
`CloseChangeError` retry, whose `except` clause does not catch the
attribute error). -/
theorem chained_close_aborts_with_attribute_error (f : Faults) (w : ActivationWorker)
    (hcc : f.onCloseChange = false) (hci : f.onCreateIncident = false)
    (ha : w.activation_state ≠ ActivationState.ACTIVATION_COMPLETED) :
    closeUploadChain f w =
      (Except.error (PyError.attrError "upload_artifacts"),
       { w with trace := w.trace ++ [Event.closeNoop] }) ∧
    (w.change_state = ChangeState.IMPLEMENT →
      ActivationWorker.handle_error f Err.GetDeviceError w =
        (Except.error (PyError.attrError "upload_artifacts"),
         { w with trace := w.trace ++ [Event.closeNoop] })) ∧
    (w.change_state = ChangeState.IMPLEMENT →
      ActivationWorker.handle_error f Err.CheckModuleError w =
        (Except.error (PyError.attrError "upload_artifacts"),
         { w with trace := w.trace ++ [Event.closeNoop] })) ∧
    ActivationWorker.handle_error f Err.PreCheckError w =
      (Except.error (PyError.attrError "upload_artifacts"),
       { w with trace := w.trace ++ [Event.closeNoop] }) ∧
    ActivationWorker.handle_error f Err.ActivationError w =
      (Except.error (PyError.attrError "upload_artifacts"),
       { w with trace := w.trace ++ [Event.closeNoop] }) ∧
    ActivationWorker.handle_error f Err.CloseChangeError w =
      (Except.error (PyError.attrError "upload_artifacts"),
       { w with sleeps := w.sleeps + 1, trace := w.trace ++ [Event.slept, Event.closeNoop] }) := by
  have hchain : ∀ w0 : ActivationWorker,
      w0.activation_state ≠ ActivationState.ACTIVATION_COMPLETED →
      closeUploadChain f w0 =
        (Except.error (PyError.attrError "upload_artifacts"),
         { w0 with trace := w0.trace ++ [Event.closeNoop] }) := by
    intro w0 ha0
    simp [closeUploadChain, ActivationWorker.close_change, hcc, ha0, pyChain]
  refine ⟨hchain w ha, fun hi => ?_, fun hi => ?_, ?_, ?_, ?_⟩
  · simp [ActivationWorker.handle_error, hci, hi, closeUploadIncidentChain, hchain w ha, pyChain]
  · simp [ActivationWorker.handle_error, hci, hi, closeUploadIncidentChain, hchain w ha, pyChain]
  · simp [ActivationWorker.handle_error, hci, closeUploadIncidentChain, hchain w ha, pyChain]
  · simp [ActivationWorker.handle_error, hci, closeUploadIncidentChain, hchain w ha, pyChain]
  · have hx := hchain { w with sleeps := w.sleeps + 1, trace := w.trace ++ [Event.slept] } ha
    simp [ActivationWorker.handle_error, hci, sleepBackoff, hx]

theorem chained_close_aborts_with_attribute_error_witness :
    noFaults.onCloseChange = false ∧
    noFaults.onCreateIncident = false ∧
    implementWorker.activation_state ≠ ActivationState.ACTIVATION_COMPLETED ∧
    implementWorker.change_state = ChangeState.IMPLEMENT ∧
    closeUploadChain noFaults implementWorker =
      (Except.error (PyError.attrError "upload_artifacts"),
       { implementWorker with trace := implementWorker.trace ++ [Event.closeNoop] }) ∧
    ActivationWorker.handle_error noFaults Err.GetDeviceError implementWorker =
      (Except.error (PyError.attrError "upload_artifacts"),
       { implementWorker with trace := implementWorker.trace ++ [Event.closeNoop] }) ∧
    ActivationWorker.handle_error noFaults Err.CloseChangeError implementWorker =
      (Except.error (PyError.attrError "upload_artifacts"),
       { implementWorker with
         sleeps := implementWorker.sleeps + 1
         trace := implementWorker.trace ++ [Event.slept, Event.closeNoop] }) :=
  ⟨rfl, rfl, by decide, rfl,
    (chained_close_aborts_with_attribute_error noFaults implementWorker rfl rfl (by decide)).1,
    (chained_close_aborts_with_attribute_error noFaults implementWorker rfl rfl
        (by decide)).2.1 rfl,
    (chained_close_aborts_with_attribute_error noFaults implementWorker rfl rfl
        (by decide)).2.2.2.2.2⟩

end CompositionTesting
